import Mathlib

/-!
# Verification of the tensor-expression IR builder and loop-nest lowering

A shallow embedding of `torch/csrc/jit/tensorexpr/tensor.cpp`: the `Tensor`
entity, the arity-specialized `Compute` builders, the `Reduce` overloads, and
the lowering algorithm (`ElementStmt`, `lowerToStmt`) that expands a tensor
definition into a nested-loop statement tree.

Node allocation is made explicit: statement nodes carry an allocation id drawn
from a counter that is threaded through the lowering, mirroring the `new`
allocations in the C++ source.  Structural equivalence of statement trees is
equality after erasing allocation ids (`Stmt.erase`).
-/

namespace TE

/-- Identifier of an index variable (`Var` in the source). Fresh variables are
allocated with consecutive ids from a counter. -/
abbrev VarId := Nat

/-- Scalar expression nodes (`Expr` in the source).  `Read` is the indexed
read of a named source (a `Placeholder` load or a `Tensor` call); `Combine`
is the application of a named combining rule of a `Reducer`. -/
inductive Expr where
  | IntImm : Int → Expr
  | Var : VarId → Expr
  | Read : String → List Expr → Expr
  | Combine : String → Expr → Expr → Expr
  deriving Repr

/-- Backing buffer descriptor (`Buf` in the source): a name, a rank, and an
optional scalar initializer expression. -/
structure Buf where
  name : String
  ndim : Nat
  initializer : Option Expr
  deriving Repr

/-- Statement nodes (`Stmt` in the source), each carrying the allocation id it
received from the counter.  The stored value is optional because the C++
`Store` holds the raw `body_` pointer, which may be null for an
already-expanded tensor. -/
inductive Stmt where
  | Store : Nat → Buf → List Expr → Option Expr → Expr → Stmt
  | For : Nat → VarId → Expr → Expr → Stmt → Stmt
  | Block : Nat → List Stmt → Stmt
  deriving Repr

/-- Statement trees with the allocation ids erased: the notion of structural
equivalence used throughout. -/
inductive StmtShape where
  | Store : Buf → List Expr → Option Expr → Expr → StmtShape
  | For : VarId → Expr → Expr → StmtShape → StmtShape
  | Block : List StmtShape → StmtShape
  deriving Repr

mutual

/-- Erase allocation ids from a statement tree. -/
def Stmt.erase : Stmt → StmtShape
  | .Store _ b i v m => .Store b i v m
  | .For _ v a e s => .For v a e s.erase
  | .Block _ ss => .Block (Stmt.eraseList ss)

/-- Erase allocation ids from a list of statement trees. -/
def Stmt.eraseList : List Stmt → List StmtShape
  | [] => []
  | s :: rest => s.erase :: Stmt.eraseList rest

end

/-- The `Tensor` entity.  Modelled from the spec for the fields (the class
declaration lives in `tensor.h`, outside the corpus): a name, a backing
buffer, parallel sequences of output dims and index variables, parallel
sequences of reduction dims and reduction variables, and an optional
functional body. -/
structure Tensor where
  name : String
  buf : Buf
  dims : List Expr
  args : List VarId
  reduceDims : List Expr
  reduceArgs : List VarId
  body : Option Expr
  deriving Repr

/-- `Tensor::ndim()`: the number of output dimensions. -/
def Tensor.ndim (t : Tensor) : Nat := t.dims.length

/-- `Tensor::reduce_ndim()`: the number of reduction dimensions. -/
def Tensor.reduce_ndim (t : Tensor) : Nat := t.reduceDims.length

/-- `Tensor::ElementStmt()`: the innermost `Store` of the body into the
backing buffer at the index tuple formed by the first `buf->ndim()` dimension
variables, under an always-true mask; allocates one statement node. -/
def Tensor.ElementStmt (t : Tensor) (c : Nat) : Stmt × Nat :=
  let indices := (List.range t.buf.ndim).map (fun i => Expr.Var (t.args.getD i 0))
  (Stmt.Store c t.buf indices t.body (Expr.IntImm 1), c + 1)

/-- Wrap a statement in a nest of `For` loops, one per `(var, extent)` pair,
first pair outermost and last pair innermost, each from `0` to the extent:
this realizes the C++ loop that iterates `dim_index = n-1-i` for `i = 0..n-1`,
wrapping the last-declared axis first (innermost). -/
def wrapLoops : List (VarId × Expr) → Stmt → Nat → Stmt × Nat
  | [], s, c => (s, c)
  | (v, d) :: rest, s, c =>
    let r := wrapLoops rest s c
    (Stmt.For r.2 v (Expr.IntImm 0) d r.1, r.2 + 1)

/-- `Tensor::lowerToStmt()`: expand the tensor into its full loop-nest
statement.  Starts from `ElementStmt`; returns it unchanged when the body is
absent or the tensor is a pure scalar; otherwise wraps the reduction axes
(plus the initializer `Store` inside a `Block`, when the buffer declares an
initializer), then the output axes.  The counter of allocated statement nodes
is threaded through and returned. -/
def Tensor.lowerToStmt (t : Tensor) (c : Nat) : Stmt × Nat :=
  let e := t.ElementStmt c
  match t.body with
  | none => e
  | some _ =>
    if t.ndim = 0 ∧ t.reduce_ndim = 0 then e
    else
      let init_expr := t.buf.initializer
      let indices := t.args.map Expr.Var
      let r :=
        if t.reduce_ndim > 0 then
          let sr := wrapLoops (t.reduceArgs.zip t.reduceDims) e.1 e.2
          match init_expr with
          | some ie =>
            let init := Stmt.Store sr.2 t.buf indices (some ie) (Expr.IntImm 1)
            (Stmt.Block (sr.2 + 1) [init, sr.1], sr.2 + 2)
          | none => sr
        else e
      wrapLoops (t.args.zip t.dims) r.1 r.2

/-- A dimension descriptor (`DimArg`): a loop extent expression and a name
hint for the generated index variable. -/
structure DimArg where
  dim : Expr
  name_hint : String
  deriving Repr

/-- `unpack_dim_args`: produce the parallel list of extent expressions and the
parallel list of freshly allocated index variables (consecutive ids from the
counter), index-for-index, returning the advanced counter. -/
def unpack_dim_args (dim_args : List DimArg) (c : Nat) :
    List Expr × List VarId × Nat :=
  (dim_args.map (fun a => a.dim),
   (List.range dim_args.length).map (fun i => c + i),
   c + dim_args.length)

/-- Modelled from the spec: the `Tensor` constructor used by `Compute`
(declared in `tensor.h`, absent from the corpus).  It builds a
functional-form tensor: a backing buffer of matching rank with no
initializer, the given dims/args, empty reduction axes, and the body. -/
def mkComputeTensor (func_name : String) (dims : List Expr)
    (args : List VarId) (body : Expr) : Tensor :=
  { name := func_name,
    buf := { name := func_name, ndim := dims.length, initializer := none },
    dims := dims, args := args,
    reduceDims := [], reduceArgs := [], body := some body }

/-- The generic `Compute` overload (body callable takes the whole vector of
index variables): no arity validation, the callable is always invoked with
the freshly allocated variables. -/
def ComputeN (func_name : String) (dim_args : List DimArg)
    (body_func : List Expr → Expr) (c : Nat) : Tensor × Nat :=
  let u := unpack_dim_args dim_args c
  let body := body_func (u.2.1.map Expr.Var)
  (mkComputeTensor func_name u.1 u.2.1 body, u.2.2)

/-- The arity-1 `Compute` overload: throws `malformed_input` when
`dim_args.size() != 1`, otherwise invokes the callable on the single fresh
variable. -/
def Compute1 (func_name : String) (dim_args : List DimArg)
    (body_func : Expr → Expr) (c : Nat) : Except String (Tensor × Nat) :=
  if dim_args.length ≠ 1 then
    .error "mismatch between body and arg size (1)"
  else
    let u := unpack_dim_args dim_args c
    let body := body_func (Expr.Var (u.2.1.getD 0 0))
    .ok (mkComputeTensor func_name u.1 u.2.1 body, u.2.2)

/-- The arity-2 `Compute` overload: throws `malformed_input` when
`dim_args.size() != 2`. -/
def Compute2 (func_name : String) (dim_args : List DimArg)
    (body_func : Expr → Expr → Expr) (c : Nat) : Except String (Tensor × Nat) :=
  if dim_args.length ≠ 2 then
    .error "mismatch between body and arg size (2)"
  else
    let u := unpack_dim_args dim_args c
    let body := body_func (Expr.Var (u.2.1.getD 0 0)) (Expr.Var (u.2.1.getD 1 0))
    .ok (mkComputeTensor func_name u.1 u.2.1 body, u.2.2)

/-- The arity-3 `Compute` overload: throws `malformed_input` when
`dim_args.size() != 3`. -/
def Compute3 (func_name : String) (dim_args : List DimArg)
    (body_func : Expr → Expr → Expr → Expr) (c : Nat) :
    Except String (Tensor × Nat) :=
  if dim_args.length ≠ 3 then
    .error "mismatch between body and arg size (3)"
  else
    let u := unpack_dim_args dim_args c
    let body := body_func (Expr.Var (u.2.1.getD 0 0)) (Expr.Var (u.2.1.getD 1 0))
      (Expr.Var (u.2.1.getD 2 0))
    .ok (mkComputeTensor func_name u.1 u.2.1 body, u.2.2)

/-- The arity-4 `Compute` overload: throws `malformed_input` when
`dim_args.size() != 4`. -/
def Compute4 (func_name : String) (dim_args : List DimArg)
    (body_func : Expr → Expr → Expr → Expr → Expr) (c : Nat) :
    Except String (Tensor × Nat) :=
  if dim_args.length ≠ 4 then
    .error "mismatch between body and arg size (4)"
  else
    let u := unpack_dim_args dim_args c
    let body := body_func (Expr.Var (u.2.1.getD 0 0)) (Expr.Var (u.2.1.getD 1 0))
      (Expr.Var (u.2.1.getD 2 0)) (Expr.Var (u.2.1.getD 3 0))
    .ok (mkComputeTensor func_name u.1 u.2.1 body, u.2.2)

/-- A `Reducer`: an initializer expression and a combining rule for the
accumulator; `tag` names the reduction operation carried into the `Combine`
expression nodes it builds. -/
structure Reducer where
  tag : String
  init : Expr

/-- The combining rule of a `Reducer`: `combine(accumulator, value)`. -/
def Reducer.combine (r : Reducer) (acc value : Expr) : Expr :=
  Expr.Combine r.tag acc value

/-- A `Placeholder`: a named addressable buffer supporting indexed load. -/
structure Placeholder where
  name : String
  ndim : Nat

/-- Modelled from the spec: `Placeholder::load(indices)`, the index-based read
of the placeholder buffer (declared outside the corpus). -/
def Placeholder.load (p : Placeholder) (indices : List Expr) : Expr :=
  Expr.Read p.name indices

/-- Modelled from the spec: `Tensor::call(indices)`, the index-based read of
the output of another tensor (declared outside the corpus). -/
def Tensor.call (t : Tensor) (indices : List Expr) : Expr :=
  Expr.Read t.name indices

/-- Modelled from the spec: the shared `Reduce` implementation parameterized
by the indexed-read operation (declared in `tensor.h`, absent from the
corpus).  It unpacks both dimension groups, indexes the source with the
concatenation of output and reduction variables, combines the per-iteration
value against the accumulator load of the output buffer, and sets the
backing buffer initializer from the reducer. -/
def ReduceCore (func_name : String) (dim_args : List DimArg)
    (reducer : Reducer) (body_func : List Expr → Expr)
    (reduce_args : List DimArg) (c : Nat) : Tensor × Nat :=
  let u := unpack_dim_args dim_args c
  let ru := unpack_dim_args reduce_args u.2.2
  let outVars := u.2.1.map Expr.Var
  let value := body_func (outVars ++ ru.2.1.map Expr.Var)
  let body := reducer.combine (Expr.Read func_name outVars) value
  ({ name := func_name,
     buf := { name := func_name, ndim := u.1.length,
              initializer := some reducer.init },
     dims := u.1, args := u.2.1,
     reduceDims := ru.1, reduceArgs := ru.2.1, body := some body }, ru.2.2)

/-- The `Reduce` overload taking a `Placeholder` value source: delegates to
the shared implementation with the buffer load as the indexed read. -/
def ReduceBuf (func_name : String) (dim_args : List DimArg)
    (reducer : Reducer) (buffer : Placeholder)
    (reduce_args : List DimArg) (c : Nat) : Tensor × Nat :=
  ReduceCore func_name dim_args reducer (fun p => buffer.load p) reduce_args c

/-- The `Reduce` overload taking a `Tensor` value source: delegates to the
shared implementation with the tensor call as the indexed read. -/
def ReduceTensor (func_name : String) (dim_args : List DimArg)
    (reducer : Reducer) (tensor : Tensor)
    (reduce_args : List DimArg) (c : Nat) : Tensor × Nat :=
  ReduceCore func_name dim_args reducer (fun p => tensor.call p) reduce_args c

/-- The id-erased image of a loop nest: one `For` per `(var, extent)` pair,
first pair outermost, each from `0` to the extent. -/
def shapeNest : List (VarId × Expr) → StmtShape → StmtShape
  | [], s => s
  | (v, d) :: rest, s => .For v (.IntImm 0) d (shapeNest rest s)

/-- The id-erased image of `ElementStmt`. -/
def Tensor.elementShape (t : Tensor) : StmtShape :=
  .Store t.buf ((List.range t.buf.ndim).map (fun i => Expr.Var (t.args.getD i 0)))
    t.body (.IntImm 1)

/-- The id-erased image of `lowerToStmt`: the counter-free statement tree the
lowering always produces, whatever the allocation counter. -/
def Tensor.lowerShape (t : Tensor) : StmtShape :=
  match t.body with
  | none => t.elementShape
  | some _ =>
    if t.ndim = 0 ∧ t.reduce_ndim = 0 then t.elementShape
    else
      let s :=
        if t.reduce_ndim > 0 then
          let sr := shapeNest (t.reduceArgs.zip t.reduceDims) t.elementShape
          match t.buf.initializer with
          | some ie =>
            .Block [.Store t.buf (t.args.map Expr.Var) (some ie) (.IntImm 1), sr]
          | none => sr
        else t.elementShape
      shapeNest (t.args.zip t.dims) s

theorem wrapLoops_erase (ps : List (VarId × Expr)) (s : Stmt) (c : Nat) :
    ((wrapLoops ps s c).1).erase = shapeNest ps s.erase := by
  induction ps generalizing s c with
  | nil => rfl
  | cons p rest ih =>
    obtain ⟨v, d⟩ := p
    simp [wrapLoops, Stmt.erase, shapeNest, ih]

theorem ElementStmt_erase (t : Tensor) (c : Nat) :
    ((t.ElementStmt c).1).erase = t.elementShape := rfl

theorem lowerToStmt_erase (t : Tensor) (c : Nat) :
    ((t.lowerToStmt c).1).erase = t.lowerShape := by
  cases hb : t.body with
  | none =>
    simp [Tensor.lowerToStmt, Tensor.lowerShape, hb, ElementStmt_erase]
  | some b =>
    by_cases hs : t.ndim = 0 ∧ t.reduce_ndim = 0
    · simp [Tensor.lowerToStmt, Tensor.lowerShape, hb, hs, ElementStmt_erase]
    · by_cases hr : t.reduce_ndim > 0
      · cases hi : t.buf.initializer with
        | none =>
          simp [Tensor.lowerToStmt, Tensor.lowerShape, hb, hs, hr, hi,
            wrapLoops_erase, ElementStmt_erase]
        | some ie =>
          simp [Tensor.lowerToStmt, Tensor.lowerShape, hb, hs, hr, hi,
            wrapLoops_erase, ElementStmt_erase, Stmt.erase, Stmt.eraseList,
            Tensor.elementShape]
      · simp [Tensor.lowerToStmt, Tensor.lowerShape, hb, hs, hr,
          wrapLoops_erase, ElementStmt_erase]

theorem range_getD_map_var (l : List VarId) :
    (List.range l.length).map (fun i => Expr.Var (l.getD i 0)) = l.map Expr.Var := by
  induction l with
  | nil => rfl
  | cons a l ih =>
    rw [List.length_cons, List.range_succ_eq_map, List.map_cons, List.map_map]
    simp only [Function.comp_def, List.getD_cons_zero, List.getD_cons_succ]
    rw [ih, List.map_cons]

theorem elementShape_args (t : Tensor) (hbuf : t.buf.ndim = t.args.length) :
    t.elementShape = .Store t.buf (t.args.map Expr.Var) t.body (.IntImm 1) := by
  rw [Tensor.elementShape, hbuf, range_getD_map_var]

/-- Claim C1: with a non-null body, at least one output dimension and no
reduction axes, lowering yields a pure nest of `For` loops around the element
`Store`, first-declared dimension outermost, each loop running from `0` to
the corresponding extent. -/
theorem lower_no_reduction_loop_nest (t : Tensor) (b : Expr) (c : Nat)
    (hb : t.body = some b) (hd : t.dims ≠ []) (hr : t.reduceDims = [])
    (hbuf : t.buf.ndim = t.args.length) :
    ((t.lowerToStmt c).1).erase =
      shapeNest (t.args.zip t.dims)
        (.Store t.buf (t.args.map Expr.Var) (some b) (.IntImm 1)) := by
  have hn : t.ndim ≠ 0 := by
    simp [Tensor.ndim, hd]
  have he := elementShape_args t hbuf
  rw [lowerToStmt_erase, Tensor.lowerShape]
  rw [hb] at he ⊢
  simp [hn, hr, Tensor.reduce_ndim, he]

/-- Concrete instance for `lower_no_reduction_loop_nest`: a rank-2 tensor
with extents 3 and 4 and body `x[i, j]`. -/
def exT2 : Tensor :=
  { name := "f",
    buf := { name := "f", ndim := 2, initializer := none },
    dims := [Expr.IntImm 3, Expr.IntImm 4], args := [0, 1],
    reduceDims := [], reduceArgs := [],
    body := some (Expr.Read "x" [Expr.Var 0, Expr.Var 1]) }

theorem lower_no_reduction_loop_nest_witness :
    exT2.body = some (Expr.Read "x" [Expr.Var 0, Expr.Var 1]) ∧
    exT2.dims ≠ [] ∧ exT2.reduceDims = [] ∧
    exT2.buf.ndim = exT2.args.length ∧
    ((exT2.lowerToStmt 0).1).erase =
      shapeNest (exT2.args.zip exT2.dims)
        (.Store exT2.buf (exT2.args.map Expr.Var)
          (some (Expr.Read "x" [Expr.Var 0, Expr.Var 1])) (.IntImm 1)) :=
  ⟨rfl, by simp [exT2], rfl, rfl,
    lower_no_reduction_loop_nest exT2 _ 0 rfl (by simp [exT2]) rfl rfl⟩

/-- Claim C2: with a non-null body, reduction axes present and a buffer
initializer declared, the output loops enclose a `Block` whose first
statement stores the initializer at the output index tuple and whose second
is the reduction loop nest around the element `Store`: the accumulator is
initialized once per output index, before and outside the reduction loops. -/
theorem lower_reduction_with_init (t : Tensor) (b ie : Expr) (c : Nat)
    (hb : t.body = some b) (hr : t.reduceDims ≠ [])
    (hi : t.buf.initializer = some ie) (hbuf : t.buf.ndim = t.args.length) :
    ((t.lowerToStmt c).1).erase =
      shapeNest (t.args.zip t.dims)
        (.Block [.Store t.buf (t.args.map Expr.Var) (some ie) (.IntImm 1),
          shapeNest (t.reduceArgs.zip t.reduceDims)
            (.Store t.buf (t.args.map Expr.Var) (some b) (.IntImm 1))]) := by
  have hn : t.reduce_ndim ≠ 0 := by
    simp [Tensor.reduce_ndim, hr]
  have he := elementShape_args t hbuf
  rw [lowerToStmt_erase, Tensor.lowerShape]
  rw [hb] at he ⊢
  simp [hn, hi, Nat.pos_of_ne_zero hn, he]

/-- Concrete instance for `lower_reduction_with_init`: one output dim of
extent 3, one reduction dim of extent 4, accumulator initializer `0`. -/
def exTR : Tensor :=
  { name := "s",
    buf := { name := "s", ndim := 1, initializer := some (Expr.IntImm 0) },
    dims := [Expr.IntImm 3], args := [0],
    reduceDims := [Expr.IntImm 4], reduceArgs := [1],
    body := some (Expr.Combine "add" (Expr.Read "s" [Expr.Var 0])
      (Expr.Read "x" [Expr.Var 0, Expr.Var 1])) }

theorem lower_reduction_with_init_witness :
    exTR.body = some (Expr.Combine "add" (Expr.Read "s" [Expr.Var 0])
      (Expr.Read "x" [Expr.Var 0, Expr.Var 1])) ∧
    exTR.reduceDims ≠ [] ∧ exTR.buf.initializer = some (Expr.IntImm 0) ∧
    exTR.buf.ndim = exTR.args.length ∧
    ((exTR.lowerToStmt 0).1).erase =
      shapeNest (exTR.args.zip exTR.dims)
        (.Block [.Store exTR.buf (exTR.args.map Expr.Var)
            (some (Expr.IntImm 0)) (.IntImm 1),
          shapeNest (exTR.reduceArgs.zip exTR.reduceDims)
            (.Store exTR.buf (exTR.args.map Expr.Var)
              (some (Expr.Combine "add" (Expr.Read "s" [Expr.Var 0])
                (Expr.Read "x" [Expr.Var 0, Expr.Var 1]))) (.IntImm 1))]) :=
  ⟨rfl, by simp [exTR], rfl, rfl,
    lower_reduction_with_init exTR _ _ 0 rfl (by simp [exTR]) rfl rfl⟩

/-- Claim C10: with a non-null body, reduction axes present and no buffer
initializer, no initializer `Store` and no `Block` are emitted: the reduction
loops wrap the element `Store` directly and the output loops wrap them. -/
theorem lower_reduction_no_init (t : Tensor) (b : Expr) (c : Nat)
    (hb : t.body = some b) (hr : t.reduceDims ≠ [])
    (hi : t.buf.initializer = none) (hbuf : t.buf.ndim = t.args.length) :
    ((t.lowerToStmt c).1).erase =
      shapeNest (t.args.zip t.dims)
        (shapeNest (t.reduceArgs.zip t.reduceDims)
          (.Store t.buf (t.args.map Expr.Var) (some b) (.IntImm 1))) := by
  have hn : t.reduce_ndim ≠ 0 := by
    simp [Tensor.reduce_ndim, hr]
  have he := elementShape_args t hbuf
  rw [lowerToStmt_erase, Tensor.lowerShape]
  rw [hb] at he ⊢
  simp [hn, hi, Nat.pos_of_ne_zero hn, he]

/-- Concrete instance for `lower_reduction_no_init`: same as `exTR` but the
backing buffer declares no initializer. -/
def exTRn : Tensor :=
  { name := "s",
    buf := { name := "s", ndim := 1, initializer := none },
    dims := [Expr.IntImm 3], args := [0],
    reduceDims := [Expr.IntImm 4], reduceArgs := [1],
    body := some (Expr.Combine "add" (Expr.Read "s" [Expr.Var 0])
      (Expr.Read "x" [Expr.Var 0, Expr.Var 1])) }

theorem lower_reduction_no_init_witness :
    exTRn.body = some (Expr.Combine "add" (Expr.Read "s" [Expr.Var 0])
      (Expr.Read "x" [Expr.Var 0, Expr.Var 1])) ∧
    exTRn.reduceDims ≠ [] ∧ exTRn.buf.initializer = none ∧
    exTRn.buf.ndim = exTRn.args.length ∧
    ((exTRn.lowerToStmt 0).1).erase =
      shapeNest (exTRn.args.zip exTRn.dims)
        (shapeNest (exTRn.reduceArgs.zip exTRn.reduceDims)
          (.Store exTRn.buf (exTRn.args.map Expr.Var)
            (some (Expr.Combine "add" (Expr.Read "s" [Expr.Var 0])
              (Expr.Read "x" [Expr.Var 0, Expr.Var 1]))) (.IntImm 1))) :=
  ⟨rfl, by simp [exTRn], rfl, rfl,
    lower_reduction_no_init exTRn _ 0 rfl (by simp [exTRn]) rfl rfl⟩

/-- Claim C4: with an absent body, lowering returns exactly the element
statement (node ids and counter included): no `For` loops, no `Block`,
whatever the declared dims and reduceDims. -/
theorem lower_no_body_element_stmt (t : Tensor) (c : Nat) (hb : t.body = none) :
    t.lowerToStmt c = t.ElementStmt c := by
  simp [Tensor.lowerToStmt, hb]

/-- Concrete instance for `lower_no_body_element_stmt`: an already-expanded
rank-1 tensor with a declared reduction dim and no body. -/
def exTE : Tensor :=
  { name := "e",
    buf := { name := "e", ndim := 1, initializer := none },
    dims := [Expr.IntImm 2], args := [0],
    reduceDims := [Expr.IntImm 5], reduceArgs := [1],
    body := none }

theorem lower_no_body_element_stmt_witness :
    exTE.body = none ∧ exTE.lowerToStmt 7 = exTE.ElementStmt 7 :=
  ⟨rfl, lower_no_body_element_stmt exTE 7 rfl⟩

/-- Claim C5: a pure scalar (non-null body, no output dims, no reduction
dims, rank-0 buffer) lowers to a bare `Store` with an empty index list and no
`For` wrapping. -/
theorem lower_scalar_bare_store (t : Tensor) (b : Expr) (c : Nat)
    (hb : t.body = some b) (hd : t.dims = []) (hr : t.reduceDims = [])
    (hbuf : t.buf.ndim = 0) :
    t.lowerToStmt c = (Stmt.Store c t.buf [] (some b) (Expr.IntImm 1), c + 1) := by
  simp [Tensor.lowerToStmt, Tensor.ElementStmt, Tensor.ndim, Tensor.reduce_ndim,
    hb, hd, hr, hbuf]

/-- Concrete instance for `lower_scalar_bare_store`: a scalar tensor storing
the constant `42`. -/
def exTS : Tensor :=
  { name := "c",
    buf := { name := "c", ndim := 0, initializer := none },
    dims := [], args := [],
    reduceDims := [], reduceArgs := [],
    body := some (Expr.IntImm 42) }

theorem lower_scalar_bare_store_witness :
    exTS.body = some (Expr.IntImm 42) ∧ exTS.dims = [] ∧
    exTS.reduceDims = [] ∧ exTS.buf.ndim = 0 ∧
    exTS.lowerToStmt 3 =
      (Stmt.Store 3 exTS.buf [] (some (Expr.IntImm 42)) (Expr.IntImm 1), 3 + 1) :=
  ⟨rfl, rfl, rfl, rfl, lower_scalar_bare_store exTS _ 3 rfl rfl rfl rfl⟩

/-- Claim C7: re-lowering is deterministic up to node identity: two
invocations of `lowerToStmt` on the same tensor, with any two allocation
counters, produce statement trees that are equal after erasing the allocation
ids. -/
theorem lower_relower_structurally_equal (t : Tensor) (c₁ c₂ : Nat) :
    ((t.lowerToStmt c₁).1).erase = ((t.lowerToStmt c₂).1).erase := by
  rw [lowerToStmt_erase, lowerToStmt_erase]

/-- Claim C3: each arity-specialized `Compute` overload (arities 1 to 4)
rejects a dimension list whose length differs from its arity with the
malformed-input error — a constant that does not depend on the body callable,
so the callable is never invoked on the error path — and on a matching
length succeeds with a tensor of that rank and no reduction axes. -/
theorem compute_arity_validation (name : String) (das : List DimArg) (c : Nat)
    (f1 : Expr → Expr) (f2 : Expr → Expr → Expr)
    (f3 : Expr → Expr → Expr → Expr) (f4 : Expr → Expr → Expr → Expr → Expr) :
    (das.length ≠ 1 →
      Compute1 name das f1 c = .error "mismatch between body and arg size (1)") ∧
    (das.length = 1 → ∃ r, Compute1 name das f1 c = .ok r ∧
      r.1.ndim = 1 ∧ r.1.reduceDims = []) ∧
    (das.length ≠ 2 →
      Compute2 name das f2 c = .error "mismatch between body and arg size (2)") ∧
    (das.length = 2 → ∃ r, Compute2 name das f2 c = .ok r ∧
      r.1.ndim = 2 ∧ r.1.reduceDims = []) ∧
    (das.length ≠ 3 →
      Compute3 name das f3 c = .error "mismatch between body and arg size (3)") ∧
    (das.length = 3 → ∃ r, Compute3 name das f3 c = .ok r ∧
      r.1.ndim = 3 ∧ r.1.reduceDims = []) ∧
    (das.length ≠ 4 →
      Compute4 name das f4 c = .error "mismatch between body and arg size (4)") ∧
    (das.length = 4 → ∃ r, Compute4 name das f4 c = .ok r ∧
      r.1.ndim = 4 ∧ r.1.reduceDims = []) := by
  refine ⟨fun h => by simp [Compute1, h], fun h => ?_,
    fun h => by simp [Compute2, h], fun h => ?_,
    fun h => by simp [Compute3, h], fun h => ?_,
    fun h => by simp [Compute4, h], fun h => ?_⟩
  · unfold Compute1
    rw [if_neg (by simp [h])]
    exact ⟨_, rfl, by simp [mkComputeTensor, Tensor.ndim, unpack_dim_args, h], rfl⟩
  · unfold Compute2
    rw [if_neg (by simp [h])]
    exact ⟨_, rfl, by simp [mkComputeTensor, Tensor.ndim, unpack_dim_args, h], rfl⟩
  · unfold Compute3
    rw [if_neg (by simp [h])]
    exact ⟨_, rfl, by simp [mkComputeTensor, Tensor.ndim, unpack_dim_args, h], rfl⟩
  · unfold Compute4
    rw [if_neg (by simp [h])]
    exact ⟨_, rfl, by simp [mkComputeTensor, Tensor.ndim, unpack_dim_args, h], rfl⟩

/-- Concrete dimension list of length 2 for the arity-validation witness. -/
def dasW : List DimArg := [⟨Expr.IntImm 5, "i"⟩, ⟨Expr.IntImm 6, "j"⟩]

theorem compute_arity_validation_witness :
    Compute1 "f" dasW (fun i => i) 0 =
      .error "mismatch between body and arg size (1)" ∧
    (∃ r, Compute2 "f" dasW (fun i j => Expr.Combine "add" i j) 0 = .ok r ∧
      r.1.ndim = 2 ∧ r.1.reduceDims = []) ∧
    Compute3 "f" dasW (fun i _ _ => i) 0 =
      .error "mismatch between body and arg size (3)" ∧
    Compute4 "f" dasW (fun i _ _ _ => i) 0 =
      .error "mismatch between body and arg size (4)" := by
  have h := compute_arity_validation "f" dasW 0 (fun i => i)
    (fun i j => Expr.Combine "add" i j) (fun i _ _ => i) (fun i _ _ _ => i)
  exact ⟨h.1 (by simp [dasW]), h.2.2.2.1 (by simp [dasW]),
    h.2.2.2.2.1 (by simp [dasW]), h.2.2.2.2.2.2.1 (by simp [dasW])⟩

/-- Claim C8: whenever an overload's own arity check fails (per overload:
its arity differs from the dimension-list length), that overload returns the
malformed-input error and nothing else: no tensor value is produced (`ok` is
impossible), and the result does not depend on the body callable or on the
allocation counter, so repeating the call on the same malformed dimension
list fails identically. -/
theorem compute_arity_failure_aborts (name : String) (das : List DimArg)
    (c c₂ : Nat) (f1 g1 : Expr → Expr) (f2 g2 : Expr → Expr → Expr)
    (f3 g3 : Expr → Expr → Expr → Expr)
    (f4 g4 : Expr → Expr → Expr → Expr → Expr) :
    (das.length ≠ 1 →
      Compute1 name das f1 c = .error "mismatch between body and arg size (1)" ∧
      Compute1 name das f1 c = Compute1 name das g1 c₂ ∧
      ∀ r, Compute1 name das f1 c ≠ .ok r) ∧
    (das.length ≠ 2 →
      Compute2 name das f2 c = .error "mismatch between body and arg size (2)" ∧
      Compute2 name das f2 c = Compute2 name das g2 c₂ ∧
      ∀ r, Compute2 name das f2 c ≠ .ok r) ∧
    (das.length ≠ 3 →
      Compute3 name das f3 c = .error "mismatch between body and arg size (3)" ∧
      Compute3 name das f3 c = Compute3 name das g3 c₂ ∧
      ∀ r, Compute3 name das f3 c ≠ .ok r) ∧
    (das.length ≠ 4 →
      Compute4 name das f4 c = .error "mismatch between body and arg size (4)" ∧
      Compute4 name das f4 c = Compute4 name das g4 c₂ ∧
      ∀ r, Compute4 name das f4 c ≠ .ok r) := by
  refine ⟨fun h => ⟨?_, ?_, ?_⟩, fun h => ⟨?_, ?_, ?_⟩,
    fun h => ⟨?_, ?_, ?_⟩, fun h => ⟨?_, ?_, ?_⟩⟩ <;>
    simp [Compute1, Compute2, Compute3, Compute4, h]

theorem compute_arity_failure_aborts_witness :
    Compute1 "f" [⟨Expr.IntImm 5, "i"⟩, ⟨Expr.IntImm 6, "j"⟩] (fun i => i) 0 =
      .error "mismatch between body and arg size (1)" ∧
    Compute1 "f" [⟨Expr.IntImm 5, "i"⟩, ⟨Expr.IntImm 6, "j"⟩] (fun i => i) 0 =
      Compute1 "f" [⟨Expr.IntImm 5, "i"⟩, ⟨Expr.IntImm 6, "j"⟩]
        (fun _ => Expr.IntImm 9) 5 := by
  have h := compute_arity_failure_aborts "f"
    [⟨Expr.IntImm 5, "i"⟩, ⟨Expr.IntImm 6, "j"⟩] 0 5
    (fun i => i) (fun _ => Expr.IntImm 9) (fun i _ => i) (fun i _ => i)
    (fun i _ _ => i) (fun i _ _ => i) (fun i _ _ _ => i) (fun i _ _ _ => i)
  exact ⟨(h.1 (by simp)).1, (h.1 (by simp)).2.1⟩

/-- Claim C9: the generic `Compute` overload performs no arity validation: on
every dimension list it succeeds, invoking the callable with exactly
`dim_args.size()` freshly allocated, pairwise distinct variables, and returns
a tensor whose rank is the dimension count and whose reduction axes are
empty. -/
theorem computeN_no_arity_check (name : String) (das : List DimArg)
    (f : List Expr → Expr) (c : Nat) :
    ∃ vs : List Expr,
      vs = (List.range das.length).map (fun i => Expr.Var (c + i)) ∧
      vs.length = das.length ∧ vs.Nodup ∧
      (ComputeN name das f c).1.body = some (f vs) ∧
      (ComputeN name das f c).1.ndim = das.length ∧
      (ComputeN name das f c).1.reduceDims = [] := by
  refine ⟨_, rfl, by simp, ?_, ?_, by simp [ComputeN, mkComputeTensor,
    Tensor.ndim, unpack_dim_args], rfl⟩
  · refine List.Nodup.map ?_ (List.nodup_range _)
    intro a b hab
    simpa using hab
  · simp [ComputeN, mkComputeTensor, unpack_dim_args, List.map_map,
      Function.comp_def]

/-- Claim C6: both `Reduce` overloads delegate to the shared implementation,
differing only in the indexed-read callable they pass (`buffer.load` versus
`tensor.call`); when the two reads agree on every index list the overloads
produce equal results. -/
theorem reduce_overloads_shared_impl (name : String) (das ras : List DimArg)
    (red : Reducer) (ph : Placeholder) (tn : Tensor) (c : Nat)
    (h : ∀ p : List Expr, ph.load p = tn.call p) :
    ReduceBuf name das red ph ras c =
      ReduceCore name das red (fun p => ph.load p) ras c ∧
    ReduceTensor name das red tn ras c =
      ReduceCore name das red (fun p => tn.call p) ras c ∧
    ReduceBuf name das red ph ras c = ReduceTensor name das red tn ras c := by
  refine ⟨rfl, rfl, ?_⟩
  unfold ReduceBuf ReduceTensor ReduceCore
  simp [h]

/-- Concrete value source for the `Reduce`-overload witness: a placeholder
and a tensor that expose the same indexed read (same source name). -/
def phW : Placeholder := { name := "x", ndim := 2 }

/-- Concrete tensor value source named like `phW`, so both reads agree. -/
def tnW : Tensor :=
  { name := "x",
    buf := { name := "x", ndim := 2, initializer := none },
    dims := [Expr.IntImm 3, Expr.IntImm 4], args := [0, 1],
    reduceDims := [], reduceArgs := [],
    body := some (Expr.IntImm 0) }

theorem reduce_overloads_shared_impl_witness :
    ReduceBuf "sum" [⟨Expr.IntImm 3, "n"⟩] ⟨"add", Expr.IntImm 0⟩ phW
        [⟨Expr.IntImm 4, "k"⟩] 0 =
      ReduceTensor "sum" [⟨Expr.IntImm 3, "n"⟩] ⟨"add", Expr.IntImm 0⟩ tnW
        [⟨Expr.IntImm 4, "k"⟩] 0 :=
  (reduce_overloads_shared_impl "sum" [⟨Expr.IntImm 3, "n"⟩]
    [⟨Expr.IntImm 4, "k"⟩] ⟨"add", Expr.IntImm 0⟩ phW tnW 0
    (fun _ => rfl)).2.2

end TE
